import Mathlib

/-!
Verification of the SPiD interpreter (`Main-Parser-1.0.py`).

The development is a shallow embedding of the interpreter core: the command
registry built from the grammar text, the tokenizer, the value resolver, the
variable store, the dispatcher with its per-command argument shaping, the
handlers, and the script execution engine.

Modelling conventions, stated once here:
* Python `float` values are modelled as exact rationals (`ℚ`).  The special
  values `inf`/`nan`, underscore digit separators, and binary rounding are
  outside the model; no behaviour examined here depends on them.
* Python exceptions are modelled by an explicit `exn` outcome carrying the
  state at the moment of the raise (Python exceptions do not roll back state).
* Python's recursion limit (`RecursionError`) is modelled by a fuel parameter
  on the line executor; running out of fuel raises, exactly as CPython does.
* The handlers whose bodies are pure I/O against the outside world
  (embedded Python `exec`, filesystem `ET`/`LI`, network `FCH`/`FETCH`) are
  modelled as opaque external events appended to an event trace; the
  specification declares them out of scope for the core.
* All string manipulation is routed through `List Char` so that every
  definition evaluates by kernel reduction.
-/

namespace SPiD

/-- Values held by the interpreter: the Python code stores either `float`s or
`str`s in its variable dictionary.  Floats are modelled as exact rationals. -/
inductive Value where
  | num (q : ℚ)
  | str (s : String)
deriving DecidableEq, Repr

/-- Whitespace characters for Python `str.strip` and the regex class `\s`. -/
def isSpaceChar (c : Char) : Bool :=
  c = ' ' || c = '\t' || c = '\n' || c = '\r' || c = '\x0b' || c = '\x0c'

/-- Word characters, the regex class `\w` (ASCII letters, digits, underscore). -/
def isWordChar (c : Char) : Bool :=
  c.isAlphanum || c = '_'

/-- Python `str.strip()`: drop leading and trailing whitespace. -/
def pyStrip (s : String) : String :=
  ⟨((s.data.dropWhile isSpaceChar).reverse.dropWhile isSpaceChar).reverse⟩

/-- Python `str.startswith(p)`. -/
def strStartsWith (s p : String) : Bool :=
  p.data.isPrefixOf s.data

/-- Python `str.endswith(p)`. -/
def strEndsWith (s p : String) : Bool :=
  p.data.reverse.isPrefixOf s.data.reverse

/-- Python slicing `s[1:-1]`: drop the first and the last character. -/
def strDropEnds (s : String) : String :=
  ⟨(s.data.drop 1).dropLast⟩

/-- Python `s.upper()` (ASCII). -/
def pyUpperStr (s : String) : String :=
  ⟨s.data.map Char.toUpper⟩

/-- Python `s.split(c, 1)[0]`: the prefix of `s` before the first occurrence
of `c` (all of `s` when `c` does not occur). -/
def beforeChar (c : Char) (s : String) : String :=
  ⟨s.data.takeWhile (fun x => !(x = c))⟩

/-- Split a character list at the first occurrence of `c`; `none` if absent. -/
def breakAt (c : Char) : List Char → Option (List Char × List Char)
  | [] => none
  | x :: xs =>
    if x = c then some ([], xs)
    else
      match breakAt c xs with
      | some (a, b) => some (x :: a, b)
      | none => none

/-- Python `s.split(c, 1)` when it yields two parts: the text before the first
`c` and everything after it. -/
def splitFirst (c : Char) (s : String) : Option (String × String) :=
  match breakAt c s.data with
  | some (a, b) => some (⟨a⟩, ⟨b⟩)
  | none => none

/-- Python `' '.join(parts)`. -/
def sjoin : List String → String
  | [] => ""
  | [x] => x
  | x :: xs => x ++ " " ++ sjoin xs

/-- Numeric value of a list of decimal digits. -/
def digitsToNat (ds : List Char) : ℕ :=
  ds.foldl (fun a c => 10 * a + (c.toNat - 48)) 0

/-- Leading sign of a numeric literal: the sign factor and the rest. -/
def splitSign : List Char → ℤ × List Char
  | '+' :: r => (1, r)
  | '-' :: r => (-1, r)
  | r => (1, r)

/-- Model of Python `float(s)` on decimal literals: optional surrounding
whitespace, optional sign, digits with an optional decimal point (at least one
digit overall), and an optional exponent part.  `none` models `ValueError`.
The special literals `inf`/`nan` and underscore separators are not modelled
(no token of interest here uses them, and `inf`/`nan` have no rational
counterpart).  The rational is built with `mkRat` so that the definition
evaluates by kernel reduction. -/
def pyFloat? (s : String) : Option ℚ :=
  let cs := (pyStrip s).data
  let (sg, cs1) := splitSign cs
  let ip := cs1.takeWhile Char.isDigit
  let cs2 := cs1.dropWhile Char.isDigit
  let fp := match cs2 with
    | '.' :: r => r.takeWhile Char.isDigit
    | _ => []
  let cs3 := match cs2 with
    | '.' :: r => r.dropWhile Char.isDigit
    | r => r
  if ip = [] && fp = [] then none
  else
    let m : ℤ := sg * (digitsToNat (ip ++ fp) : ℤ)
    match cs3 with
    | [] => some (mkRat m ((10 : ℕ) ^ fp.length))
    | e :: r =>
      if e = 'e' || e = 'E' then
        let (esg, r1) := splitSign r
        let ed := r1.takeWhile Char.isDigit
        let r2 := r1.dropWhile Char.isDigit
        if ed = [] || !(r2 = []) then none
        else if esg = 1 then
          some (mkRat (m * (((10 : ℕ) ^ digitsToNat ed : ℕ) : ℤ)) ((10 : ℕ) ^ fp.length))
        else some (mkRat m ((10 : ℕ) ^ (fp.length + digitsToNat ed)))
      else none

/-- Rational addition expressed through `mkRat`, so that concrete arithmetic
evaluates by kernel reduction (the library's own `Rat.add` is irreducible).
`qAdd_eq` identifies it with ordinary addition on `ℚ`. -/
def qAdd (a b : ℚ) : ℚ :=
  mkRat (a.num * b.den + b.num * a.den) (a.den * b.den)

/-- Rational subtraction through `mkRat`; see `qAdd`. -/
def qSub (a b : ℚ) : ℚ :=
  mkRat (a.num * b.den - b.num * a.den) (a.den * b.den)

/-- Rational multiplication through `mkRat`; see `qAdd`. -/
def qMul (a b : ℚ) : ℚ :=
  mkRat (a.num * b.num) (a.den * b.den)

/-- Rational division through `Rat.divInt`; see `qAdd`.  Agrees with `a / b`
for every `b` (both send a zero divisor to `0`). -/
def qDiv (a b : ℚ) : ℚ :=
  Rat.divInt (a.num * b.den) (a.den * b.num)

/-- Model of Python `int(s)` on a string: optional whitespace, optional sign,
then decimal digits only (so `int("3.5")` fails).  `none` models `ValueError`. -/
def pyIntOfString? (s : String) : Option ℤ :=
  let cs := (pyStrip s).data
  let (sg, cs1) := splitSign cs
  if !(cs1 = []) && cs1.all Char.isDigit then some (sg * (digitsToNat cs1 : ℤ))
  else none

/-- Truncation of a rational toward zero, the behaviour of Python `int(float)`. -/
def truncQ (q : ℚ) : ℤ :=
  if 0 ≤ q.num then ((q.num.natAbs / q.den : ℕ) : ℤ)
  else -((q.num.natAbs / q.den : ℕ) : ℤ)

/-- Model of Python `int(x)` applied to an interpreter value: floats truncate
toward zero, strings must be integer literals.  `none` models `ValueError`. -/
def pyInt? : Value → Option ℤ
  | .num q => some (truncQ q)
  | .str s => pyIntOfString? s

/-- Model of Python `float(x)` applied to an interpreter value.  `none` models
`ValueError`/`TypeError`. -/
def toFloat? : Value → Option ℚ
  | .num q => some q
  | .str s => pyFloat? s

/-- Model of Python `x.upper()` on an interpreter value: only strings have the
attribute; `none` models `AttributeError` on a float. -/
def pyUpper? : Value → Option String
  | .num _ => none
  | .str s => some (pyUpperStr s)

/-- The variable store: Python's `self.variables` dictionary.  Keys are full
values because several handlers index the dictionary with a *resolved* value
(which is a string name only when the token was unbound). -/
def varsGet : List (Value × Value) → Value → Option Value
  | [], _ => none
  | (k, v) :: r, key => if k = key then some v else varsGet r key

/-- Dictionary update: replace the first binding of the key, else append. -/
def varsSet : List (Value × Value) → Value → Value → List (Value × Value)
  | [], k, v => [(k, v)]
  | (k0, v0) :: r, k, v =>
    if k0 = k then (k, v) :: r else (k0, v0) :: varsSet r k v

/-- The value resolver `parse_value` (source lines 131-146): quoted literal,
then numeric literal, then the dead `'0'`/`'1'` checks, then the `NULL`
keyword, then variable lookup, else the token itself. -/
def parse_value (vars : List (Value × Value)) (token : String) : Value :=
  if strStartsWith token "\"" && strEndsWith token "\"" then
    .str (strDropEnds token)
  else
    match pyFloat? token with
    | some q => .num q
    | none =>
      if token = "0" then .num 0
      else if token = "1" then .num 1
      else if pyUpperStr token = "NULL" then .str "NULL"
      else
        match varsGet vars (.str token) with
        | some v => v
        | none => .str token

/-- Worker of the tokenizer: characters still to read, quote state, pending
escape, current token text, accumulated tokens (source lines 148-172). -/
def tokenizeGo : List Char → Bool → Bool → String → List String → List String
  | [], _, _, cur, acc => if cur = "" then acc else acc ++ [cur]
  | c :: rest, inQ, esc, cur, acc =>
    if esc then tokenizeGo rest inQ false (cur.push c) acc
    else if c = '\\' then tokenizeGo rest inQ true cur acc
    else if c = '"' then tokenizeGo rest (!inQ) false (cur.push c) acc
    else if c = ' ' && !inQ then
      if cur = "" then tokenizeGo rest inQ false "" acc
      else tokenizeGo rest inQ false "" (acc ++ [cur])
    else tokenizeGo rest inQ false (cur.push c) acc

/-- The tokenizer `tokenize`: split on unquoted spaces, quote-aware, with a
single escape character. -/
def tokenize (line : String) : List String :=
  tokenizeGo line.data false false "" []

/-- An entry of the command table: the clause's pattern text, the optional
handler tag, and the derived argument count (source lines 124-128). -/
structure CommandDef where
  pattern : String
  handler : Option String
  arg_count : ℕ
deriving DecidableEq, Repr

/-- Matcher for the optional tail `\s*\[CMD=(\w+)\]` of the clause regex,
anchored at the end of the line: optional whitespace, the literal `[CMD=`,
at least one word character (returned), then `]` and end of input. -/
def cmdSuffix? (tail : List Char) : Option String :=
  match tail.dropWhile isSpaceChar with
  | '[' :: 'C' :: 'M' :: 'D' :: '=' :: r =>
    let w := r.takeWhile isWordChar
    if w = [] then none
    else if r.dropWhile isWordChar = [']'] then some ⟨w⟩ else none
  | _ => none

/-- Lazy matching of `(.+?)(?:\s*\[CMD=(\w+)\])?$`: the middle group takes the
shortest non-empty prefix after which either the `[CMD=...]` tail matches to
the end of the line, or the line ends (then there is no handler group). -/
def lazySplit (seen : List Char) : List Char → Option (List Char × Option String)
  | [] => none
  | c :: rest =>
    match cmdSuffix? rest with
    | some h => some (seen ++ [c], some h)
    | none =>
      if rest = [] then some (seen ++ [c], none)
      else lazySplit (seen ++ [c]) rest

/-- Model of `re.match(r'^(\w+)\s+(.+?)(?:\s*\[CMD=(\w+)\])?$', line)` on the
grammar lines (which are pre-stripped, so the greedy `\s+` needs no
backtracking): a leading run of word characters, at least one whitespace
character, then the lazy middle group as in `lazySplit`. -/
def clauseRegexMatch (line : String) : Option (String × String × Option String) :=
  let cs := line.data
  let w := cs.takeWhile isWordChar
  let r1 := cs.dropWhile isWordChar
  if w = [] then none
  else if r1.takeWhile isSpaceChar = [] then none
  else
    match lazySplit [] (r1.dropWhile isSpaceChar) with
    | some (mid, h) => some (⟨w⟩, ⟨mid⟩, h)
    | none => none

/-- Worker for `re.findall(r'\(([^)]+)\)', pattern)`: count the non-overlapping
occurrences of a parenthesized group with a non-empty body free of `)`.
State: inside a candidate group or not, body length so far, count so far. -/
def countGroupsGo : List Char → Bool → ℕ → ℕ → ℕ
  | [], _, _, n => n
  | c :: rest, false, _, n =>
    if c = '(' then countGroupsGo rest true 0 n else countGroupsGo rest false 0 n
  | c :: rest, true, b, n =>
    if c = ')' then
      if 0 < b then countGroupsGo rest false 0 (n + 1) else countGroupsGo rest false 0 n
    else countGroupsGo rest true (b + 1) n

/-- Number of parenthesized argument groups of a pattern, as the source counts
them with `len(re.findall(r'\(([^)]+)\)', pattern))`. -/
def countGroups (s : String) : ℕ :=
  countGroupsGo s.data false 0 0

/-- Lookup in a name-indexed table (Python dict read). -/
def dictLookup : List (String × CommandDef) → String → Option CommandDef
  | [], _ => none
  | (k, v) :: r, key => if k = key then some v else dictLookup r key

/-- Update of a name-indexed table (Python dict write): replace the first
binding of the key, else append. -/
def dictSet : List (String × CommandDef) → String → CommandDef → List (String × CommandDef)
  | [], k, v => [(k, v)]
  | (k0, v0) :: r, k, v =>
    if k0 = k then (k, v) :: r else (k0, v0) :: dictSet r k v

/-- The grammar text `SPiD_definition` (source lines 57-100), split at
newlines exactly as `SPiD_definition.split('\n')` produces it. -/
def SPiD_definition_lines : List String :=
  [ ""
  , "        main.spid<"
  , "        TYPE=SPiD"
  , ""
  , "        # ARITHMETIC"
  , "        ADD (VAR,VAL) (VAR,VAL) (VAR) [CMD=ARITH_ADD]"
  , "        SUB (VAR,VAL) (VAR,VAL) (VAR) [CMD=ARITH_SUB]"
  , "        MULT (VAR,VAL) (VAR,VAL) (VAR) [CMD=ARITH_MULT]"
  , "        DIVS (VAR,VAL) (VAR,VAL) (VAR) [CMD=ARITH_DIV]"
  , ""
  , "        # LOGIC"
  , "        IF (VAR,VAL) (VAR,VAL) (HIGH,LOW,EQUAL) (THEN,ELSE) (SCRIPT) [CMD=CMP]"
  , "        BOOL (BIN) (VAR) [CMD=BOOL_SET]"
  , "        AND (VAR) (VAR) (VAR) [CMD=LOGIC_AND]"
  , "        OR (VAR) (VAR) (VAR) [CMD=LOGIC_OR]"
  , "        NOR (VAR) (VAR) (VAR) [CMD=LOGIC_NOR]"
  , "        XNOR (VAR) (VAR) (VAR) [CMD=LOGIC_XNOR]"
  , "        XOR (VAR) (VAR) (VAR) [CMD=LOGIC_XOR]"
  , ""
  , "        # PRINT"
  , "        PRINT (1,0) (VAR,TXT) [CMD=PRINT_CMD]"
  , ""
  , "        # INPUT"
  , "        INPUT (VAR) [CMD=INPUT_CMD]"
  , ""
  , "        # PYTHON"
  , "        PYTHON (TXT) [CMD=PYTHON_CMD]"
  , ""
  , "        # CONTROL FLOW"
  , "        JUMP (VAR,VAL) [CMD=JUMP_CMD]"
  , ""
  , "        # FILE SYSTEM"
  , "        ET (TXT) [CMD=CD_CMD]"
  , "        LI (BIN) (TXT) [CMD=LS_CMD]"
  , ""
  , "        # NETWORK (New commands)"
  , "        # UPDATED: Added (VAR,TXT) for language_val as the 5th argument"
  , "        #           The last two arguments shifted position."
  , "        # FCH (url) (raw_response_var) (client_agent) (format_val) (language_val) (decode_type) (decoded_output_var)"
  , "        FCH (VAR,TXT) (VAR) (VAR,TXT) (VAR,TXT) (VAR,TXT) (TXT) (VAR) [CMD=NETWORK_FETCH]"
  , "        FETCH (VAR,TXT) (VAR) (VAR,TXT) (VAR,TXT) (VAR,TXT) (TXT) (VAR) [CMD=NETWORK_FETCH] # Alias for FCH"
  , ""
  , "        END"
  , "        " ]

/-- Loop body of `parse_SPiD_definition` (source lines 102-129): strip the
line, open on `main.spid<`, break on `END`, skip outside the command section
and blank lines, strip a `#` comment (skipping the line if nothing remains),
then match the clause regex and enter the command into the table. -/
def parseDefGo : List String → Bool → List (String × CommandDef) → List (String × CommandDef)
  | [], _, acc => acc
  | l :: rest, inC, acc =>
    let l1 := pyStrip l
    if strStartsWith l1 "main.spid<" then parseDefGo rest true acc
    else if strStartsWith l1 "END" then acc
    else if !inC || l1 = "" then parseDefGo rest inC acc
    else
      let l2 := if l1.data.any (fun c => c = '#') then pyStrip (beforeChar '#' l1) else l1
      if l2 = "" then parseDefGo rest inC acc
      else
        match clauseRegexMatch l2 with
        | some (cmd, pat, h) =>
          parseDefGo rest inC
            (dictSet acc (pyUpperStr cmd) ⟨pyStrip pat, h, countGroups (pyStrip pat)⟩)
        | none => parseDefGo rest inC acc

/-- The command registry `parse_SPiD_definition`: the table built from the
grammar text at interpreter construction. -/
def parse_SPiD_definition : List (String × CommandDef) :=
  parseDefGo SPiD_definition_lines false []

/-- The command table held by the interpreter (`self.commands`). -/
def commandTable : List (String × CommandDef) :=
  parse_SPiD_definition

/-- The keys of the handler dictionary `self.handlers` (source lines 33-52). -/
def handlerNames : List String :=
  [ "CMP", "LOGIC_AND", "LOGIC_OR", "LOGIC_NOR", "LOGIC_XNOR", "LOGIC_XOR"
  , "ARITH_ADD", "ARITH_SUB", "ARITH_MULT", "ARITH_DIV", "PRINT_CMD"
  , "BOOL_SET", "PYTHON_CMD", "JUMP_CMD", "INPUT_CMD", "CD_CMD", "LS_CMD"
  , "NETWORK_FETCH" ]

/-- Number of opening parentheses of a pattern: the specification-side count
of its parenthesized groups, independent of the registry's own computation. -/
def countOpenParens (s : String) : ℕ :=
  s.data.countP (fun c => c = '(')

/-- Interpreter state.  `variables` is the dictionary `self.variables`,
`script_lines`/`program_counter` the engine state, `output` the sequence of
printed lines, `inputs` the pending external input lines consumed by `INPUT`,
`externals` the trace of opaque external calls (embedded Python, filesystem,
network), and `executedPCs` is specification-only instrumentation recording
which script indices the engine has read; no interpreter behaviour depends on
it.  The scratch dictionary `self.ram` is touched only by the embedded Python
capability and is absorbed into the external-call trace. -/
structure State where
  vars : List (Value × Value)
  script_lines : Option (List String)
  program_counter : ℕ
  output : List String
  inputs : List String
  externals : List String
  executedPCs : List ℕ
deriving DecidableEq, Repr

/-- Result of executing one line: normal return, or a Python exception
propagating with the state at the moment of the raise. -/
inductive Outcome where
  | ok (st : State)
  | exn (st : State) (msg : String)
deriving DecidableEq, Repr

/-- The state carried by an outcome. -/
def Outcome.state : Outcome → State
  | .ok st => st
  | .exn st _ => st

/-- The program counter carried by an outcome. -/
def Outcome.pcOf (o : Outcome) : ℕ :=
  (Outcome.state o).program_counter

/-- Whether an outcome is a normal return. -/
def Outcome.isOk : Outcome → Bool
  | .ok _ => true
  | .exn _ _ => false

/-- Append one printed line to the output. -/
def emit (st : State) (m : String) : State :=
  { st with output := st.output ++ [m] }

/-- Write a binding into the variable dictionary. -/
def setVar (st : State) (k v : Value) : State :=
  { st with vars := varsSet st.vars k v }

/-- Set the program counter. -/
def setPC (st : State) (n : ℕ) : State :=
  { st with program_counter := n }

/-- Record an executed script index (specification instrumentation). -/
def recordPC (st : State) (i : ℕ) : State :=
  { st with executedPCs := st.executedPCs ++ [i] }

/-- Record an opaque external call. -/
def pushExternal (st : State) (e : String) : State :=
  { st with externals := st.externals ++ [e] }

/-- Rendering of a value by Python `print`/f-strings.  Integral floats render
as Python prints them (`5.0`); non-integral floats render as a fraction, a
deliberate simplification: the decimal rendering of a binary float is outside
the rational model, and no behaviour examined here prints one. -/
def Value.render : Value → String
  | .num q => if q.den = 1 then toString q.num ++ ".0" else toString q.num ++ "/" ++ toString q.den
  | .str s => s

/-- The declaration branch of `execute_line` (source lines 180-195): strip a
`#` comment, re-check the closing `>`, split once at `=`, and bind the
stripped name to the resolved stripped value. -/
def execDecl (st : State) (line : String) : State :=
  let clean := pyStrip (beforeChar '#' line)
  if !(strEndsWith clean ">") then
    emit st ("Invalid variable declaration format: " ++ line ++ " (missing closing \x27>\x27)")
  else
    match splitFirst '=' (strDropEnds clean) with
    | some (v, w) => setVar st (.str (pyStrip v)) (parse_value st.vars (pyStrip w))
    | none => emit st ("Invalid variable declaration: " ++ line)

/-- Result of the argument-shaping stage: the shaped argument list (with any
warning already printed), or a Python exception raised during shaping —
shaping runs *outside* the dispatcher's `try`, so such an exception
propagates out of `execute_line`. -/
inductive ShapeResult where
  | ok (st : State) (args : List Value)
  | exn (st : State) (msg : String)
deriving DecidableEq, Repr

/-- The dispatcher's argument-shaping stage (source lines 216-266), one branch
per command family; `argCount` is the command's declared arity, used by the
`IF` split and the `FCH` padding exactly as the source uses it. -/
def shape (st : State) (cmd : String) (raw : List String) (argCount : ℕ) : ShapeResult :=
  if cmd = "PRINT" then
    match raw with
    | [] => .exn st "IndexError: list index out of range"
    | t0 :: rest =>
      if 0 < rest.length then
        match pyInt? (parse_value st.vars t0) with
        | none => .exn st "ValueError: invalid literal for int()"
        | some n =>
          if n = 0 then .ok st [parse_value st.vars t0, .str (rest.headD "")]
          else .ok st [parse_value st.vars t0, .str (sjoin rest)]
      else
        .ok (emit st ("Warning: PRINT command with flag " ++ t0 ++ " has no content."))
          [parse_value st.vars t0, .str ""]
  else if cmd = "IF" then
    if raw.length < argCount - 1 then .exn st "IndexError: list index out of range"
    else
      .ok st (((raw.take (argCount - 1)).map (parse_value st.vars))
        ++ [.str (sjoin (raw.drop (argCount - 1)))])
  else if cmd = "PYTHON" then .ok st [.str (sjoin raw)]
  else if cmd = "INPUT" then
    match raw with
    | [] => .exn st "IndexError: list index out of range"
    | t :: _ => .ok st [.str t]
  else if cmd = "ET" then .ok st [.str (sjoin raw)]
  else if cmd = "LI" then
    match raw with
    | [] => .exn st "IndexError: list index out of range"
    | t0 :: rest =>
      .ok st [parse_value st.vars t0, .str (if 0 < rest.length then sjoin rest else "")]
  else if cmd = "FCH" || cmd = "FETCH" then
    match raw with
    | a0 :: a1 :: a2 :: a3 :: a4 :: a5 :: a6 :: _ =>
      .ok st ([parse_value st.vars a0, .str a1, parse_value st.vars a2,
        parse_value st.vars a3, parse_value st.vars a4,
        parse_value st.vars a5, .str a6] ++ List.replicate (argCount - 7) (.str "NULL"))
    | _ => .exn st "IndexError: list index out of range"
  else .ok st (raw.map (parse_value st.vars))

/-- The comparison/branch handler `handle_cmp` (source lines 279-302).  Both
operands are coerced to floats; the condition and branch keywords are
uppercased (`AttributeError` if a keyword resolved to a float); the `elif`
chain sets `condition_met` only when a keyword test *and* its comparison both
hold, and everything else — including a valid keyword whose comparison is
false — falls into the `else` that reports an invalid condition and returns.
`recurse` is the recursive call to `execute_line` for the sub-script. -/
def handle_cmp (recurse : State → String → Outcome) (st : State)
    (val1 val2 condition branch : Value) (script : String) : Outcome :=
  match toFloat? val1, toFloat? val2 with
  | some v1, some v2 =>
    match pyUpper? condition with
    | none => .exn st "AttributeError: float object has no attribute upper"
    | some c =>
      match pyUpper? branch with
      | none => .exn st "AttributeError: float object has no attribute upper"
      | some b =>
        let met? : Option Bool :=
          if c = "HIGH" ∧ v1 > v2 then some true
          else if c = "LOW" ∧ v1 < v2 then some true
          else if c = "EQUAL" ∧ v1 = v2 then some true
          else none
        match met? with
        | none => .ok (emit st ("Invalid condition: " ++ c))
        | some met =>
          if (b = "THEN" ∧ met = true) ∨ (b = "ELSE" ∧ ¬ met = true) then recurse st script
          else .ok st
  | _, _ => .ok (emit st "IF command requires numeric values")

/-- A boolean stored as the interpreter stores it: `float(int(b))`. -/
def boolNum (b : Bool) : Value :=
  .num (if b then 1 else 0)

/-- The logic-gate handler `handle_logic_gate` (source lines 304-326): both
inputs coerced to float then to boolean by non-zeroness; result stored as a
`0.0`/`1.0` float in the output slot. -/
def handle_logic_gate (st : State) (in1 in2 out : Value) (gate : String) : State :=
  match toFloat? in1, toFloat? in2 with
  | some a, some b =>
    let v1 : Bool := !(decide (a = 0))
    let v2 : Bool := !(decide (b = 0))
    if gate = "AND" then setVar st out (boolNum (v1 && v2))
    else if gate = "OR" then setVar st out (boolNum (v1 || v2))
    else if gate = "NOR" then setVar st out (boolNum (!(v1 || v2)))
    else if gate = "XNOR" then setVar st out (boolNum (v1 == v2))
    else if gate = "XOR" then setVar st out (boolNum (!(v1 == v2)))
    else emit st ("Unknown gate type: " ++ gate)
  | _, _ => emit st "Logic gates require numeric values (0 or 1)"

/-- The arithmetic handler `handle_arith` (source lines 343-366): both inputs
coerced to float; division checks the divisor against exactly zero and
reports without writing; otherwise the result is stored in the output slot. -/
def handle_arith (st : State) (a b out : Value) (op : String) : State :=
  match toFloat? a, toFloat? b with
  | some av, some bv =>
    if op = "ADD" then setVar st out (.num (qAdd av bv))
    else if op = "SUB" then setVar st out (.num (qSub av bv))
    else if op = "MULT" then setVar st out (.num (qMul av bv))
    else if op = "DIV" then
      if bv = 0 then emit st "Division by zero"
      else setVar st out (.num (qDiv av bv))
    else emit st ("Unknown operation: " ++ op)
  | _, _ => emit st "Arithmetic operations require numeric values"

/-- The print handler `handle_print` (source lines 380-400): flag `0` looks
the raw name up in the store, flag `1` prints the text (stripping one
surviving layer of quotes), other flags are reported; every exception inside
the body is caught and reported as a print error. -/
def handle_print (st : State) (flag content : Value) : State :=
  match pyInt? flag with
  | none => emit st "Print error: invalid literal for int()"
  | some n =>
    if n = 0 then
      match varsGet st.vars content with
      | some v => emit st (Value.render v)
      | none => emit st ("Undefined variable: " ++ Value.render content)
    else if n = 1 then
      match content with
      | .str s =>
        if strStartsWith s "\"" && strEndsWith s "\"" then emit st (strDropEnds s)
        else emit st s
      | v => emit st (Value.render v)
    else
      emit st ("Invalid PRINT flag: " ++ Value.render flag ++ ". Use 0 for variables or 1 for text.")

/-- The boolean-set handler `handle_bool_set` (source lines 403-411): the
input must coerce to exactly `0.0` or `1.0` to be stored. -/
def handle_bool_set (st : State) (value var : Value) : State :=
  match toFloat? value with
  | some v =>
    if v = 0 ∨ v = 1 then setVar st var (.num v)
    else emit st ("Invalid BOOL value: " ++ Value.render value ++ ". Must be 0 or 1 (or 0.0 or 1.0).")
  | none => emit st ("Invalid BOOL value: " ++ Value.render value ++ ". Must be 0 or 1 (or 0.0 or 1.0).")

/-- The embedded Python handler `handle_python` (source lines 413-434):
strips one layer of quotes and `exec`s the fragment against the variable and
scratch dictionaries.  The execution itself is an external capability (out of
scope per the specification); it is modelled as an opaque external event. -/
def handle_python (st : State) (code : String) : State :=
  let c := if strStartsWith code "\"" && strEndsWith code "\"" then strDropEnds code else code
  pushExternal st ("PYTHON:" ++ c)

/-- The jump handler `handle_jump` (source lines 436-452): coerce the target
to an integer (`ValueError` reported), require a loaded script, convert the
1-indexed line number to a 0-based index, bounds-check it, and only then move
the program counter. -/
def handle_jump (st : State) (target : Value) : State :=
  match pyInt? target with
  | none =>
    emit st ("JUMP error: Invalid line number \x27" ++ Value.render target
      ++ "\x27. Must be a numeric value.")
  | some t =>
    match st.script_lines with
    | none => emit st "JUMP command is only valid when running a script from a file."
    | some ls =>
      if 0 ≤ t - 1 ∧ t - 1 < (ls.length : ℤ) then setPC st (t - 1).toNat
      else emit st ("JUMP error: Target line " ++ toString t ++ " is out of bounds.")

/-- The input handler `handle_input` (source lines 454-462): block for one
external input line (`EOFError` propagates when the source is exhausted),
store it as a float if it parses, else as text, and echo a confirmation. -/
def handle_input (st : State) (name : String) : Outcome :=
  match st.inputs with
  | [] => .exn st "EOFError"
  | v :: rest =>
    let st1 := { st with inputs := rest }
    let value := match pyFloat? v with
      | some q => Value.num q
      | none => Value.str v
    .ok (emit (setVar st1 (.str name) value)
      ("\x27" ++ v ++ "\x27 stored in \x27" ++ name ++ "\x27."))

/-- The change-directory handler `handle_cd` (source lines 465-478): strips
one layer of quotes; the filesystem effect is an external capability,
modelled as an opaque external event. -/
def handle_cd (st : State) (p : String) : State :=
  let q := if strStartsWith p "\"" && strEndsWith p "\"" then strDropEnds p else p
  pushExternal st ("ET:" ++ q)

/-- The list-directory handler `handle_ls` (source lines 480-508): the flag
must coerce to an integer (reported otherwise); the listing itself is an
external capability, modelled as an opaque external event. -/
def handle_ls (st : State) (flag path : Value) : State :=
  match pyInt? flag with
  | none => emit st ("LI error: Invalid flag \x27" ++ Value.render flag ++ "\x27. Use 0 or 1.")
  | some n =>
    match path with
    | .str s =>
      let p := if strStartsWith s "\"" && strEndsWith s "\"" then strDropEnds s else s
      pushExternal st ("LI:" ++ toString n ++ ":" ++ p)
    | v => emit st ("LI error: " ++ Value.render v)

/-- The network handler `handle_network_fetch` (source lines 511-641): the
request, its headers, and the decode pipeline act against the network and
optional libraries — external capabilities whose results are not determined
by the interpreter state, modelled as one opaque external event. -/
def handle_network_fetch (st : State) (url : Value) (rawVar : String)
    (agent fmt lang dec : Value) (outVar : String) : State :=
  pushExternal st ("FETCH:" ++ Value.render url ++ ":" ++ rawVar ++ ":" ++ Value.render agent
    ++ ":" ++ Value.render fmt ++ ":" ++ Value.render lang ++ ":" ++ Value.render dec
    ++ ":" ++ outVar)

/-- Invocation of a handler by tag with the shaped argument list.  Each
branch's argument pattern mirrors the Python handler's parameter list; the
fallback models the `TypeError` Python raises when the argument list cannot
be bound to the parameters (unreachable from `dispatch`, which has already
checked the length against the declared arity that each handler's parameter
list realizes), and the final branch the `KeyError` of an unknown tag
(unreachable: `dispatch` checks membership in `handlerNames`). -/
def runHandler (recurse : State → String → Outcome) (st : State)
    (hid : String) (args : List Value) : Outcome :=
  if hid = "CMP" then
    match args with
    | [v1, v2, c, b, .str script] => handle_cmp recurse st v1 v2 c b script
    | _ => .exn st "TypeError: handler arguments do not match its parameters"
  else if hid = "LOGIC_AND" then
    match args with
    | [a, b, o] => .ok (handle_logic_gate st a b o "AND")
    | _ => .exn st "TypeError: handler arguments do not match its parameters"
  else if hid = "LOGIC_OR" then
    match args with
    | [a, b, o] => .ok (handle_logic_gate st a b o "OR")
    | _ => .exn st "TypeError: handler arguments do not match its parameters"
  else if hid = "LOGIC_NOR" then
    match args with
    | [a, b, o] => .ok (handle_logic_gate st a b o "NOR")
    | _ => .exn st "TypeError: handler arguments do not match its parameters"
  else if hid = "LOGIC_XNOR" then
    match args with
    | [a, b, o] => .ok (handle_logic_gate st a b o "XNOR")
    | _ => .exn st "TypeError: handler arguments do not match its parameters"
  else if hid = "LOGIC_XOR" then
    match args with
    | [a, b, o] => .ok (handle_logic_gate st a b o "XOR")
    | _ => .exn st "TypeError: handler arguments do not match its parameters"
  else if hid = "ARITH_ADD" then
    match args with
    | [a, b, o] => .ok (handle_arith st a b o "ADD")
    | _ => .exn st "TypeError: handler arguments do not match its parameters"
  else if hid = "ARITH_SUB" then
    match args with
    | [a, b, o] => .ok (handle_arith st a b o "SUB")
    | _ => .exn st "TypeError: handler arguments do not match its parameters"
  else if hid = "ARITH_MULT" then
    match args with
    | [a, b, o] => .ok (handle_arith st a b o "MULT")
    | _ => .exn st "TypeError: handler arguments do not match its parameters"
  else if hid = "ARITH_DIV" then
    match args with
    | [a, b, o] => .ok (handle_arith st a b o "DIV")
    | _ => .exn st "TypeError: handler arguments do not match its parameters"
  else if hid = "PRINT_CMD" then
    match args with
    | [f, c] => .ok (handle_print st f c)
    | _ => .exn st "TypeError: handler arguments do not match its parameters"
  else if hid = "BOOL_SET" then
    match args with
    | [v, o] => .ok (handle_bool_set st v o)
    | _ => .exn st "TypeError: handler arguments do not match its parameters"
  else if hid = "PYTHON_CMD" then
    match args with
    | [.str code] => .ok (handle_python st code)
    | _ => .exn st "TypeError: handler arguments do not match its parameters"
  else if hid = "JUMP_CMD" then
    match args with
    | [t] => .ok (handle_jump st t)
    | _ => .exn st "TypeError: handler arguments do not match its parameters"
  else if hid = "INPUT_CMD" then
    match args with
    | [.str n] => handle_input st n
    | _ => .exn st "TypeError: handler arguments do not match its parameters"
  else if hid = "CD_CMD" then
    match args with
    | [.str p] => .ok (handle_cd st p)
    | _ => .exn st "TypeError: handler arguments do not match its parameters"
  else if hid = "LS_CMD" then
    match args with
    | [f, p] => .ok (handle_ls st f p)
    | _ => .exn st "TypeError: handler arguments do not match its parameters"
  else if hid = "NETWORK_FETCH" then
    match args with
    | [u, .str rv, ca, fv, lv, dv, .str ov] =>
      .ok (handle_network_fetch st u rv ca fv lv dv ov)
    | _ => .exn st "TypeError: handler arguments do not match its parameters"
  else .exn st "KeyError: unknown handler tag"

/-- The argument-count error message (source line 271). -/
def arityMsg (cmd : String) (expected got : ℕ) : String :=
  "Argument error in " ++ cmd ++ ": Expected " ++ toString expected
    ++ " arguments, but got " ++ toString got ++ "."

/-- The dispatcher (source lines 204-277): command lookup, handler check,
argument shaping, the arity guard, then the guarded handler call whose
exceptions are caught and reported (a shaping exception instead propagates,
as it is raised outside the `try`).  The source's separate `TypeError` arm
of the `except` — a handler invoked with an unbindable argument list — is
folded into the generic report: behind the arity check every handler's
parameter list binds, so neither arm's `TypeError` case is reachable. -/
def dispatch (recurse : State → String → Outcome) (st : State)
    (cmd : String) (rawArgs : List String) : Outcome :=
  match dictLookup commandTable cmd with
  | none => .ok (emit st ("Unknown command: " ++ cmd))
  | some cdef =>
    match cdef.handler with
    | none => .ok (emit st ("No handler for command: " ++ cmd))
    | some h =>
      if h = "" || !(handlerNames.contains h) then
        .ok (emit st ("No handler for command: " ++ cmd))
      else
        match shape st cmd rawArgs cdef.arg_count with
        | .exn st1 m => .exn st1 m
        | .ok st1 args =>
          if args.length ≠ cdef.arg_count then
            .ok (emit st1 (arityMsg cmd cdef.arg_count args.length))
          else
            match runHandler recurse st1 h args with
            | .ok st2 => .ok st2
            | .exn st2 e => .ok (emit st2 ("Error executing " ++ cmd ++ ": " ++ e))

/-- One pass of `execute_line` (source lines 174-277) with the recursive call
abstracted: strip the line, no-op when empty, route bracketed lines to the
declaration branch, otherwise tokenize and dispatch on the uppercased first
token. -/
def execute_line_core (recurse : State → String → Outcome) (st : State) (line : String) : Outcome :=
  let l := pyStrip line
  if l = "" then .ok st
  else if strStartsWith l "<" && strEndsWith l ">" then .ok (execDecl st l)
  else
    match tokenize l with
    | [] => .ok st
    | t :: rest => dispatch recurse st (pyUpperStr t) rest

/-- The line executor `execute_line`, with fuel modelling CPython's recursion
limit: exhausting the fuel raises `RecursionError`, exactly as a too-deep
chain of branch sub-scripts would in the source. -/
def execute_line : ℕ → State → String → Outcome
  | 0, st, _ => .exn st "RecursionError: maximum recursion depth exceeded"
  | d + 1, st, line => execute_line_core (execute_line d) st line

/-- The engine's per-line echo (source line 650). -/
def echoMsg (i : ℕ) (line : String) : String :=
  "[" ++ toString (i + 1) ++ "] SPiD> " ++ line

/-- One iteration of the script loop of `run` (source lines 646-654): read
the line at the program counter, echo it, execute it, and advance the
counter by one exactly when execution left it unchanged. -/
def engineStep (d : ℕ) (st : State) : Outcome :=
  match st.script_lines with
  | none => .ok st
  | some ls =>
    if hpc : st.program_counter < ls.length then
      let before := st.program_counter
      let line := ls.get ⟨before, hpc⟩
      let st0 := recordPC (emit st (echoMsg before line)) before
      match execute_line d st0 line with
      | .ok st1 => .ok (if st1.program_counter = before then setPC st1 (before + 1) else st1)
      | .exn st1 e => .exn st1 e
    else .ok st

/-- Result of running the script loop: normal halt (the program counter left
the script range), a crash by an uncaught exception, or fuel exhaustion of
the loop bound. -/
inductive RunResult where
  | halted (st : State)
  | crashed (st : State) (msg : String)
  | fuelOut (st : State)
deriving DecidableEq, Repr

/-- The state carried by a run result. -/
def RunResult.state : RunResult → State
  | .halted st => st
  | .crashed st _ => st
  | .fuelOut st => st

/-- The script branch of `run` (source lines 643-654): loop while the program
counter is inside the script.  `run` first resets the counter to 0
(line 645); the loop is modelled from that point for an arbitrary starting
state.  `n` bounds the number of loop iterations (the loop need not
terminate: a jump can revisit lines); `d` is the recursion fuel given to
each line execution.  A `none` script selects the interactive shell branch
of `run`, which reads external input and is out of scope here; the loop is
then never entered.  (Python tests `if self.script_lines:` by truthiness, so
an *empty* list also selects the interactive branch; for the loop itself the
distinction is invisible — with an empty script the guard fails at once.) -/
def runScript : ℕ → ℕ → State → RunResult
  | 0, _, st => .fuelOut st
  | n + 1, d, st =>
    match st.script_lines with
    | none => .halted st
    | some ls =>
      if st.program_counter < ls.length then
        match engineStep d st with
        | .ok st1 => runScript n d st1
        | .exn st1 e => .crashed st1 e
      else .halted st

/-- The script loader of the `__main__` block (source line 702): keep the
stripped non-empty lines that do not start with the comment marker. -/
def loadScript (raw : List String) : List String :=
  (raw.map pyStrip).filter (fun l => !(l = "") && !(strStartsWith l "#"))

/-- A state differs from another only in its printed output. -/
def OnlyOutput (st st1 : State) : Prop :=
  st1.vars = st.vars ∧ st1.script_lines = st.script_lines ∧
  st1.program_counter = st.program_counter ∧ st1.inputs = st.inputs ∧
  st1.externals = st.externals ∧ st1.executedPCs = st.executedPCs

/-- An outcome keeps the engine-owned fields of a state: executing a line
never changes the loaded script and never touches the executed-index trace
(only the engine itself records into it). -/
def KeepsEngine (st : State) (o : Outcome) : Prop :=
  (Outcome.state o).script_lines = st.script_lines ∧
  (Outcome.state o).executedPCs = st.executedPCs

/-- A fresh interpreter state with no script loaded. -/
def blankState : State :=
  ⟨[], none, 0, [], [], [], []⟩

/-- The specification's branch example: `X` bound to `5`, `Y` bound to `3`. -/
def branchExampleState : State :=
  ⟨[(.str "X", .num 5), (.str "Y", .num 3)], none, 0, [], [], [], []⟩

/-- A two-line script both of whose lines jump to line 1, positioned at the
first line. -/
def jumpLoopState : State :=
  ⟨[], some ["JUMP 1", "JUMP 1"], 0, [], [], [], []⟩

/-- A two-line script positioned at its second line, which is `JUMP 1`. -/
def jumpFromSecondState : State :=
  ⟨[], some ["PRINT 1 a", "JUMP 1"], 1, [], [], [], []⟩

/-- A one-line script whose line is a plain logic command. -/
def oneLineScriptState : State :=
  ⟨[], some ["AND 1 1 Z"], 0, [], [], [], []⟩

theorem qAdd_eq (a b : ℚ) : qAdd a b = a + b := by
  rw [qAdd, Rat.mkRat_eq_divInt, Rat.divInt_eq_div]
  have hda : ((a.den : ℚ)) ≠ 0 := by exact_mod_cast a.den_nz
  have hdb : ((b.den : ℚ)) ≠ 0 := by exact_mod_cast b.den_nz
  conv_rhs => rw [← Rat.num_div_den a, ← Rat.num_div_den b]
  push_cast
  field_simp

theorem qSub_eq (a b : ℚ) : qSub a b = a - b := by
  rw [qSub, Rat.mkRat_eq_divInt, Rat.divInt_eq_div]
  have hda : ((a.den : ℚ)) ≠ 0 := by exact_mod_cast a.den_nz
  have hdb : ((b.den : ℚ)) ≠ 0 := by exact_mod_cast b.den_nz
  conv_rhs => rw [← Rat.num_div_den a, ← Rat.num_div_den b]
  push_cast
  field_simp
  ring

theorem qMul_eq (a b : ℚ) : qMul a b = a * b := by
  rw [qMul, Rat.mkRat_eq_divInt, Rat.divInt_eq_div]
  have hda : ((a.den : ℚ)) ≠ 0 := by exact_mod_cast a.den_nz
  have hdb : ((b.den : ℚ)) ≠ 0 := by exact_mod_cast b.den_nz
  conv_rhs => rw [← Rat.num_div_den a, ← Rat.num_div_den b]
  push_cast
  field_simp

theorem qDiv_eq (a b : ℚ) (hb : b ≠ 0) : qDiv a b = a / b := by
  rw [qDiv, Rat.divInt_eq_div]
  have hda : ((a.den : ℚ)) ≠ 0 := by exact_mod_cast a.den_nz
  have hdb : ((b.den : ℚ)) ≠ 0 := by exact_mod_cast b.den_nz
  have hbn : ((b.num : ℚ)) ≠ 0 := by exact_mod_cast Rat.num_ne_zero.mpr hb
  conv_rhs => rw [← Rat.num_div_den a, ← Rat.num_div_den b]
  push_cast
  field_simp

@[simp] theorem emit_vars (st : State) (m : String) : (emit st m).vars = st.vars := rfl

@[simp] theorem emit_script (st : State) (m : String) :
    (emit st m).script_lines = st.script_lines := rfl

@[simp] theorem emit_pc (st : State) (m : String) :
    (emit st m).program_counter = st.program_counter := rfl

@[simp] theorem emit_inputs (st : State) (m : String) : (emit st m).inputs = st.inputs := rfl

@[simp] theorem emit_externals (st : State) (m : String) :
    (emit st m).externals = st.externals := rfl

@[simp] theorem emit_trace (st : State) (m : String) :
    (emit st m).executedPCs = st.executedPCs := rfl

@[simp] theorem setVar_script (st : State) (k v : Value) :
    (setVar st k v).script_lines = st.script_lines := rfl

@[simp] theorem setVar_pc (st : State) (k v : Value) :
    (setVar st k v).program_counter = st.program_counter := rfl

@[simp] theorem setVar_trace (st : State) (k v : Value) :
    (setVar st k v).executedPCs = st.executedPCs := rfl

@[simp] theorem setPC_script (st : State) (n : ℕ) :
    (setPC st n).script_lines = st.script_lines := rfl

@[simp] theorem setPC_trace (st : State) (n : ℕ) :
    (setPC st n).executedPCs = st.executedPCs := rfl

@[simp] theorem setPC_pc (st : State) (n : ℕ) : (setPC st n).program_counter = n := rfl

@[simp] theorem recordPC_script (st : State) (i : ℕ) :
    (recordPC st i).script_lines = st.script_lines := rfl

@[simp] theorem recordPC_pc (st : State) (i : ℕ) :
    (recordPC st i).program_counter = st.program_counter := rfl

@[simp] theorem recordPC_trace (st : State) (i : ℕ) :
    (recordPC st i).executedPCs = st.executedPCs ++ [i] := rfl

@[simp] theorem pushExternal_script (st : State) (e : String) :
    (pushExternal st e).script_lines = st.script_lines := rfl

@[simp] theorem pushExternal_pc (st : State) (e : String) :
    (pushExternal st e).program_counter = st.program_counter := rfl

@[simp] theorem pushExternal_trace (st : State) (e : String) :
    (pushExternal st e).executedPCs = st.executedPCs := rfl

@[simp] theorem state_ok (st : State) : Outcome.state (.ok st) = st := rfl

@[simp] theorem state_exn (st : State) (m : String) : Outcome.state (.exn st m) = st := rfl

theorem OnlyOutput.refl (st : State) : OnlyOutput st st :=
  ⟨rfl, rfl, rfl, rfl, rfl, rfl⟩

theorem OnlyOutput.emit (st : State) (m : String) : OnlyOutput st (emit st m) :=
  ⟨rfl, rfl, rfl, rfl, rfl, rfl⟩

theorem execDecl_keeps (st : State) (line : String) :
    (execDecl st line).script_lines = st.script_lines ∧
    (execDecl st line).executedPCs = st.executedPCs := by
  simp only [execDecl]
  repeat' split
  all_goals simp

theorem handle_logic_gate_keeps (st : State) (a b o : Value) (g : String) :
    (handle_logic_gate st a b o g).script_lines = st.script_lines ∧
    (handle_logic_gate st a b o g).executedPCs = st.executedPCs := by
  simp only [handle_logic_gate]
  repeat' split
  all_goals simp

theorem handle_arith_keeps (st : State) (a b o : Value) (op : String) :
    (handle_arith st a b o op).script_lines = st.script_lines ∧
    (handle_arith st a b o op).executedPCs = st.executedPCs := by
  simp only [handle_arith]
  repeat' split
  all_goals simp

theorem handle_print_keeps (st : State) (f c : Value) :
    (handle_print st f c).script_lines = st.script_lines ∧
    (handle_print st f c).executedPCs = st.executedPCs := by
  simp only [handle_print]
  repeat' split
  all_goals simp

theorem handle_bool_set_keeps (st : State) (v o : Value) :
    (handle_bool_set st v o).script_lines = st.script_lines ∧
    (handle_bool_set st v o).executedPCs = st.executedPCs := by
  simp only [handle_bool_set]
  repeat' split
  all_goals simp

theorem handle_python_keeps (st : State) (code : String) :
    (handle_python st code).script_lines = st.script_lines ∧
    (handle_python st code).executedPCs = st.executedPCs := by
  simp only [handle_python]
  repeat' split
  all_goals simp

theorem handle_jump_keeps (st : State) (t : Value) :
    (handle_jump st t).script_lines = st.script_lines ∧
    (handle_jump st t).executedPCs = st.executedPCs := by
  simp only [handle_jump]
  repeat' split
  all_goals simp

theorem handle_cd_keeps (st : State) (p : String) :
    (handle_cd st p).script_lines = st.script_lines ∧
    (handle_cd st p).executedPCs = st.executedPCs := by
  simp only [handle_cd]
  repeat' split
  all_goals simp

theorem handle_ls_keeps (st : State) (f p : Value) :
    (handle_ls st f p).script_lines = st.script_lines ∧
    (handle_ls st f p).executedPCs = st.executedPCs := by
  simp only [handle_ls]
  repeat' split
  all_goals simp

theorem handle_network_fetch_keeps (st : State) (u : Value) (rv : String)
    (ca fv lv dv : Value) (ov : String) :
    (handle_network_fetch st u rv ca fv lv dv ov).script_lines = st.script_lines ∧
    (handle_network_fetch st u rv ca fv lv dv ov).executedPCs = st.executedPCs := by
  simp only [handle_network_fetch]
  repeat' split
  all_goals simp

theorem handle_input_keeps (st : State) (n : String) :
    KeepsEngine st (handle_input st n) := by
  simp only [handle_input, KeepsEngine]
  repeat' split
  all_goals simp

theorem handle_cmp_keeps (recurse : State → String → Outcome)
    (hrec : ∀ st l, KeepsEngine st (recurse st l)) (st : State)
    (v1 v2 c b : Value) (script : String) :
    KeepsEngine st (handle_cmp recurse st v1 v2 c b script) := by
  simp only [handle_cmp, KeepsEngine]
  repeat' split
  all_goals first
    | exact hrec st script
    | simp

theorem shape_ok_only_output (st : State) (cmd : String) (raw : List String)
    (n : ℕ) (st1 : State) (args : List Value)
    (h : shape st cmd raw n = .ok st1 args) : OnlyOutput st st1 := by
  unfold shape at h
  repeat' split at h
  all_goals cases h
  all_goals first
    | exact OnlyOutput.refl st
    | exact OnlyOutput.emit st _

theorem shape_exn_state (st : State) (cmd : String) (raw : List String)
    (n : ℕ) (st1 : State) (m : String)
    (h : shape st cmd raw n = .exn st1 m) : st1 = st := by
  unfold shape at h
  repeat' split at h
  all_goals cases h
  all_goals rfl

theorem runHandler_keeps (recurse : State → String → Outcome)
    (hrec : ∀ st l, KeepsEngine st (recurse st l)) (st : State)
    (hid : String) (args : List Value) :
    KeepsEngine st (runHandler recurse st hid args) := by
  unfold runHandler
  by_cases h0 : hid = "CMP"
  · rw [if_pos h0]
    split <;> first | exact ⟨rfl, rfl⟩ | exact handle_cmp_keeps recurse hrec st _ _ _ _ _
  · rw [if_neg h0]
    by_cases h1 : hid = "LOGIC_AND"
    · rw [if_pos h1]
      split <;> first | exact ⟨rfl, rfl⟩ | exact handle_logic_gate_keeps st _ _ _ _
    · rw [if_neg h1]
      by_cases h2 : hid = "LOGIC_OR"
      · rw [if_pos h2]
        split <;> first | exact ⟨rfl, rfl⟩ | exact handle_logic_gate_keeps st _ _ _ _
      · rw [if_neg h2]
        by_cases h3 : hid = "LOGIC_NOR"
        · rw [if_pos h3]
          split <;> first | exact ⟨rfl, rfl⟩ | exact handle_logic_gate_keeps st _ _ _ _
        · rw [if_neg h3]
          by_cases h4 : hid = "LOGIC_XNOR"
          · rw [if_pos h4]
            split <;> first | exact ⟨rfl, rfl⟩ | exact handle_logic_gate_keeps st _ _ _ _
          · rw [if_neg h4]
            by_cases h5 : hid = "LOGIC_XOR"
            · rw [if_pos h5]
              split <;> first | exact ⟨rfl, rfl⟩ | exact handle_logic_gate_keeps st _ _ _ _
            · rw [if_neg h5]
              by_cases h6 : hid = "ARITH_ADD"
              · rw [if_pos h6]
                split <;> first | exact ⟨rfl, rfl⟩ | exact handle_arith_keeps st _ _ _ _
              · rw [if_neg h6]
                by_cases h7 : hid = "ARITH_SUB"
                · rw [if_pos h7]
                  split <;> first | exact ⟨rfl, rfl⟩ | exact handle_arith_keeps st _ _ _ _
                · rw [if_neg h7]
                  by_cases h8 : hid = "ARITH_MULT"
                  · rw [if_pos h8]
                    split <;> first | exact ⟨rfl, rfl⟩ | exact handle_arith_keeps st _ _ _ _
                  · rw [if_neg h8]
                    by_cases h9 : hid = "ARITH_DIV"
                    · rw [if_pos h9]
                      split <;> first | exact ⟨rfl, rfl⟩ | exact handle_arith_keeps st _ _ _ _
                    · rw [if_neg h9]
                      by_cases h10 : hid = "PRINT_CMD"
                      · rw [if_pos h10]
                        split <;> first | exact ⟨rfl, rfl⟩ | exact handle_print_keeps st _ _
                      · rw [if_neg h10]
                        by_cases h11 : hid = "BOOL_SET"
                        · rw [if_pos h11]
                          split <;> first | exact ⟨rfl, rfl⟩ | exact handle_bool_set_keeps st _ _
                        · rw [if_neg h11]
                          by_cases h12 : hid = "PYTHON_CMD"
                          · rw [if_pos h12]
                            split <;> first | exact ⟨rfl, rfl⟩ | exact handle_python_keeps st _
                          · rw [if_neg h12]
                            by_cases h13 : hid = "JUMP_CMD"
                            · rw [if_pos h13]
                              split <;> first | exact ⟨rfl, rfl⟩ | exact handle_jump_keeps st _
                            · rw [if_neg h13]
                              by_cases h14 : hid = "INPUT_CMD"
                              · rw [if_pos h14]
                                split <;> first | exact ⟨rfl, rfl⟩ | exact handle_input_keeps st _
                              · rw [if_neg h14]
                                by_cases h15 : hid = "CD_CMD"
                                · rw [if_pos h15]
                                  split <;> first | exact ⟨rfl, rfl⟩ | exact handle_cd_keeps st _
                                · rw [if_neg h15]
                                  by_cases h16 : hid = "LS_CMD"
                                  · rw [if_pos h16]
                                    split <;> first | exact ⟨rfl, rfl⟩ | exact handle_ls_keeps st _ _
                                  · rw [if_neg h16]
                                    by_cases h17 : hid = "NETWORK_FETCH"
                                    · rw [if_pos h17]
                                      split <;> first | exact ⟨rfl, rfl⟩ | exact handle_network_fetch_keeps st _ _ _ _ _ _ _
                                    · rw [if_neg h17]
                                      exact ⟨rfl, rfl⟩

theorem dispatch_keeps (recurse : State → String → Outcome)
    (hrec : ∀ st l, KeepsEngine st (recurse st l)) (st : State)
    (cmd : String) (rawArgs : List String) :
    KeepsEngine st (dispatch recurse st cmd rawArgs) := by
  unfold dispatch
  split
  · exact ⟨rfl, rfl⟩
  next cdef hlook =>
    split
    · exact ⟨rfl, rfl⟩
    next hname hh =>
      split_ifs
      · exact ⟨rfl, rfl⟩
      · split
        next st1 m hsh =>
          rw [shape_exn_state st cmd rawArgs cdef.arg_count st1 m hsh]
          exact ⟨rfl, rfl⟩
        next st1 args1 hsh =>
          have h1 := shape_ok_only_output st cmd rawArgs cdef.arg_count st1 args1 hsh
          split_ifs
          · exact ⟨h1.2.1, h1.2.2.2.2.2⟩
          · have h2 := runHandler_keeps recurse hrec st1 hname args1
            split
            next st2 hrun =>
              rw [hrun] at h2
              exact ⟨(h2.1).trans h1.2.1, (h2.2).trans h1.2.2.2.2.2⟩
            next st2 e hrun =>
              rw [hrun] at h2
              exact ⟨(h2.1).trans h1.2.1, (h2.2).trans h1.2.2.2.2.2⟩

theorem execute_line_core_keeps (recurse : State → String → Outcome)
    (hrec : ∀ st l, KeepsEngine st (recurse st l)) (st : State) (line : String) :
    KeepsEngine st (execute_line_core recurse st line) := by
  simp only [execute_line_core]
  split_ifs
  · exact ⟨rfl, rfl⟩
  · exact execDecl_keeps st _
  · split
    · exact ⟨rfl, rfl⟩
    · exact dispatch_keeps recurse hrec st _ _

theorem execute_line_keeps (d : ℕ) (st : State) (line : String) :
    KeepsEngine st (execute_line d st line) := by
  induction d generalizing st line with
  | zero => exact ⟨rfl, rfl⟩
  | succ d ih => exact execute_line_core_keeps (execute_line d) (fun s l => ih s l) st line

theorem engineStep_eq (d : ℕ) (st : State) (ls : List String)
    (h : st.script_lines = some ls) (hpc : st.program_counter < ls.length) :
    engineStep d st =
      match execute_line d
          (recordPC (emit st (echoMsg st.program_counter (ls.get ⟨st.program_counter, hpc⟩)))
            st.program_counter)
          (ls.get ⟨st.program_counter, hpc⟩) with
      | .ok st1 =>
        .ok (if st1.program_counter = st.program_counter then setPC st1 (st.program_counter + 1)
          else st1)
      | .exn st1 e => .exn st1 e := by
  unfold engineStep
  simp only [h]
  rw [dif_pos hpc]

theorem engineStep_fields (d : ℕ) (st : State) (ls : List String)
    (h : st.script_lines = some ls) (hpc : st.program_counter < ls.length) :
    (Outcome.state (engineStep d st)).script_lines = some ls ∧
    (Outcome.state (engineStep d st)).executedPCs = st.executedPCs ++ [st.program_counter] := by
  rw [engineStep_eq d st ls h hpc]
  have hk := execute_line_keeps d
    (recordPC (emit st (echoMsg st.program_counter (ls.get ⟨st.program_counter, hpc⟩)))
      st.program_counter)
    (ls.get ⟨st.program_counter, hpc⟩)
  split
  next st1 hex =>
    rw [hex] at hk
    refine ⟨?_, ?_⟩
    · split_ifs
      · simpa [h] using hk.1
      · simpa [h] using hk.1
    · split_ifs
      · simpa using hk.2
      · simpa using hk.2
  next st1 e hex =>
    rw [hex] at hk
    exact ⟨by simpa [h] using hk.1, by simpa using hk.2⟩

theorem runScript_step (n d : ℕ) (st : State) (ls : List String)
    (h : st.script_lines = some ls) (hpc : st.program_counter < ls.length) :
    runScript (n + 1) d st =
      match engineStep d st with
      | .ok st1 => runScript n d st1
      | .exn st1 e => .crashed st1 e := by
  conv_lhs => rw [runScript]
  simp only [h]
  rw [if_pos hpc]

theorem runScript_halt (n d : ℕ) (st : State) (ls : List String)
    (h : st.script_lines = some ls) (hge : ls.length ≤ st.program_counter) :
    runScript (n + 1) d st = .halted st := by
  unfold runScript
  simp only [h]
  rw [if_neg (by omega)]

theorem runScript_halted_out (n d : ℕ) (st st1 : State)
    (hrun : runScript n d st = .halted st1) :
    ∀ ls, st1.script_lines = some ls → ls.length ≤ st1.program_counter := by
  induction n generalizing st with
  | zero => simp [runScript] at hrun
  | succ n ih =>
    unfold runScript at hrun
    split at hrun
    · cases hrun
      intro ls hl
      rename_i hnone
      rw [hnone] at hl
      cases hl
    · rename_i ls0 hsome
      split_ifs at hrun with hpc
      · split at hrun
        · exact ih _ hrun
        · cases hrun
      · cases hrun
        intro ls hl
        rw [hsome] at hl
        cases hl
        omega

theorem runScript_trace (n d : ℕ) (st : State) (ls : List String)
    (h : st.script_lines = some ls) :
    ∀ i ∈ (RunResult.state (runScript n d st)).executedPCs,
      i ∈ st.executedPCs ∨ i < ls.length := by
  induction n generalizing st with
  | zero => intro i hi; exact Or.inl hi
  | succ n ih =>
    rcases lt_or_ge st.program_counter ls.length with hpc | hge
    · rw [runScript_step n d st ls h hpc]
      have hf := engineStep_fields d st ls h hpc
      split
      next st1 heq =>
        rw [heq] at hf
        simp only [Outcome.state] at hf
        intro i hi
        rcases ih st1 hf.1 i hi with hmem | hlt
        · rw [hf.2] at hmem
          rcases List.mem_append.mp hmem with h1 | h2
          · exact Or.inl h1
          · have h3 : i = st.program_counter := by simpa using h2
            exact Or.inr (h3 ▸ hpc)
        · exact Or.inr hlt
      next st1 e heq =>
        rw [heq] at hf
        simp only [Outcome.state] at hf
        intro i hi
        simp only [RunResult.state] at hi
        rw [hf.2] at hi
        rcases List.mem_append.mp hi with h1 | h2
        · exact Or.inl h1
        · have h3 : i = st.program_counter := by simpa using h2
          exact Or.inr (h3 ▸ hpc)
    · rw [runScript_halt n d st ls h hge]
      intro i hi
      exact Or.inl hi
/-- C7: tokenizing `PRINT 1 "a b \"c\""` yields exactly the three tokens
`PRINT`, `1`, and `"a b "c""`: the escaped quotes are taken literally inside
the quoted region (the escape character itself is consumed), spaces inside
the quotes do not split, and the surrounding quote characters are retained
in the token text. -/
theorem C7_tokenize_example :
    tokenize ("PRINT 1 \"a b \\\"c\\\"\"") = ["PRINT", "1", "\"a b \"c\"\""] := by
  decide

/-- C10: the single-character token consisting of one double quote satisfies
both the leading-quote and the trailing-quote test of the resolver, which
therefore treats it as a quoted literal and returns the empty text — not a
bare identifier and not an error — whatever the variable store holds. -/
theorem C10_lone_quote_token (vars : List (Value × Value)) :
    parse_value vars ("\"") = .str "" := rfl

/-- C10 witness: the lone-quote token on the empty store. -/
theorem C10_lone_quote_token_witness :
    parse_value [] ("\"") = .str "" :=
  C10_lone_quote_token []

/-- C8: the value resolver applies exactly the priority order quoted literal,
numeric literal, `NULL` keyword, variable lookup, verbatim text: a token
passing the quote test returns its inner text with the quotes stripped; an
unquoted numeric token is returned as a number even when a variable of that
name is bound (the store is never consulted); an unquoted non-numeric token
equal to `NULL` case-insensitively returns the null marker; otherwise a bound
token resolves to its stored value, and an unbound one to itself as text —
never an error. -/
theorem C8_resolver_priority (vars : List (Value × Value)) (token : String) :
    ((strStartsWith token "\"" && strEndsWith token "\"") = true →
      parse_value vars token = .str (strDropEnds token))
  ∧ (∀ q : ℚ, (strStartsWith token "\"" && strEndsWith token "\"") = false →
      pyFloat? token = some q → parse_value vars token = .num q)
  ∧ ((strStartsWith token "\"" && strEndsWith token "\"") = false →
      pyFloat? token = none → pyUpperStr token = "NULL" →
      parse_value vars token = .str "NULL")
  ∧ (∀ v : Value, (strStartsWith token "\"" && strEndsWith token "\"") = false →
      pyFloat? token = none → pyUpperStr token ≠ "NULL" →
      varsGet vars (.str token) = some v → parse_value vars token = v)
  ∧ ((strStartsWith token "\"" && strEndsWith token "\"") = false →
      pyFloat? token = none → pyUpperStr token ≠ "NULL" →
      varsGet vars (.str token) = none → parse_value vars token = .str token) := by
  have h0 : pyFloat? ("0") = some 0 := by decide
  have h1 : pyFloat? ("1") = some 1 := by decide
  refine ⟨?_, ?_, ?_, ?_, ?_⟩
  · intro hq
    unfold parse_value
    rw [if_pos hq]
  · intro q hq hf
    unfold parse_value
    rw [if_neg (by simp [hq]), hf]
  · intro hq hf hn
    have hz : token ≠ "0" := by intro hh; rw [hh, h0] at hf; cases hf
    have ho : token ≠ "1" := by intro hh; rw [hh, h1] at hf; cases hf
    unfold parse_value
    rw [if_neg (by simp [hq]), hf, if_neg hz, if_neg ho, if_pos hn]
  · intro v hq hf hn hv
    have hz : token ≠ "0" := by intro hh; rw [hh, h0] at hf; cases hf
    have ho : token ≠ "1" := by intro hh; rw [hh, h1] at hf; cases hf
    unfold parse_value
    rw [if_neg (by simp [hq]), hf, if_neg hz, if_neg ho, if_neg hn, hv]
  · intro hq hf hn hv
    have hz : token ≠ "0" := by intro hh; rw [hh, h0] at hf; cases hf
    have ho : token ≠ "1" := by intro hh; rw [hh, h1] at hf; cases hf
    unfold parse_value
    rw [if_neg (by simp [hq]), hf, if_neg hz, if_neg ho, if_neg hn, hv]

/-- C8 witness: with `2.5` itself bound as a variable name, the resolver
still returns the number `5/2` — the store is not consulted for a numeric
token. -/
theorem C8_resolver_priority_witness :
    parse_value [(.str "2.5", .num 9)] ("2.5") = .num (mkRat 5 2) :=
  (C8_resolver_priority [(.str "2.5", .num 9)] ("2.5")).2.1 (mkRat 5 2)
    (by decide) (by decide)

/-- C5: in the registry built from the grammar text, every entry carries a
handler tag, and its stored argument count equals the number of
parenthesized groups of its stored pattern — counted here independently as
the number of opening parentheses, so the number of alternatives listed
inside a group is irrelevant; the handler-less `TYPE=SPiD` line contributes
no entry, and exactly the nineteen tagged clauses appear, in order. -/
theorem C5_registry :
    (∀ p ∈ parse_SPiD_definition,
      (p.2.handler).isSome = true ∧ p.2.arg_count = countOpenParens p.2.pattern)
  ∧ dictLookup parse_SPiD_definition "TYPE" = none
  ∧ parse_SPiD_definition.map Prod.fst =
      ["ADD", "SUB", "MULT", "DIVS", "IF", "BOOL", "AND", "OR", "NOR", "XNOR",
       "XOR", "PRINT", "INPUT", "PYTHON", "JUMP", "ET", "LI", "FCH", "FETCH"] := by
  decide

/-- C5 witness: the `ADD` entry of the registry carries the `ARITH_ADD`
handler tag and declares three arguments, the number of parenthesized groups
of its pattern. -/
theorem C5_registry_witness :
    (Option.isSome (some "ARITH_ADD") = true ∧
      3 = countOpenParens ("(VAR,VAL) (VAR,VAL) (VAR)")) :=
  C5_registry.1 ("ADD", ⟨"(VAR,VAL) (VAR,VAL) (VAR)", some "ARITH_ADD", 3⟩) (by decide)

/-- C9: the arithmetic handler with two inputs coercible to numbers stores
the operation's result as a number in the output slot; division by exactly
zero reports and performs no write (the store is untouched, so a previously
unbound output stays unbound); a non-numeric input reports with no write,
whatever the operation. -/
theorem C9_arith_ops (st : State) (a b out : Value) (av bv : ℚ) :
    (toFloat? a = some av → toFloat? b = some bv →
      handle_arith st a b out "ADD" = setVar st out (.num (av + bv))
      ∧ handle_arith st a b out "SUB" = setVar st out (.num (av - bv))
      ∧ handle_arith st a b out "MULT" = setVar st out (.num (av * bv))
      ∧ (bv ≠ 0 → handle_arith st a b out "DIV" = setVar st out (.num (av / bv)))
      ∧ (bv = 0 → handle_arith st a b out "DIV" = emit st "Division by zero"
          ∧ (handle_arith st a b out "DIV").vars = st.vars))
  ∧ ((toFloat? a = none ∨ toFloat? b = none) → ∀ op : String,
      handle_arith st a b out op = emit st "Arithmetic operations require numeric values"
      ∧ (handle_arith st a b out op).vars = st.vars) := by
  constructor
  · intro ha hb
    refine ⟨?_, ?_, ?_, ?_, ?_⟩
    · unfold handle_arith
      rw [ha, hb]
      simp [qAdd_eq]
    · unfold handle_arith
      rw [ha, hb]
      simp [qSub_eq]
    · unfold handle_arith
      rw [ha, hb]
      simp [qMul_eq]
    · intro hnz
      unfold handle_arith
      rw [ha, hb]
      simp [hnz, qDiv_eq av bv hnz]
    · intro hz
      have he : handle_arith st a b out "DIV" = emit st "Division by zero" := by
        unfold handle_arith
        rw [ha, hb]
        simp [hz]
      exact ⟨he, by rw [he]; exact emit_vars st _⟩
  · intro hab op
    have he : handle_arith st a b out op =
        emit st "Arithmetic operations require numeric values" := by
      unfold handle_arith
      rcases hab with ha | hb
      · rw [ha]
      · rw [hb]
        rcases hta : toFloat? a with _ | av2 <;> rfl
    exact ⟨he, by rw [he]; exact emit_vars st _⟩

/-- C9 witness: `DIVS 4 0 X` reports division by zero and leaves the empty
store empty, so `X` stays unbound; `ADD` on `2` and `3` stores `5.0`. -/
theorem C9_arith_ops_witness :
    (handle_arith blankState (.num 4) (.num 0) (.str "X") "DIV" =
      emit blankState "Division by zero"
    ∧ varsGet (handle_arith blankState (.num 4) (.num 0) (.str "X") "DIV").vars
        (.str "X") = none)
    ∧ handle_arith blankState (.num 2) (.num 3) (.str "X") "ADD" =
      setVar blankState (.str "X") (.num 5) := by
  constructor
  · have h := ((C9_arith_ops blankState (.num 4) (.num 0) (.str "X") 4 0).1
      rfl rfl).2.2.2.2 rfl
    exact ⟨h.1, by rw [h.1]; decide⟩
  · have h := ((C9_arith_ops blankState (.num 2) (.num 3) (.str "X") 2 3).1
      rfl rfl).1
    rw [h]
    norm_num
/-- C2: whenever the shaped argument list of a known command with a wired
handler does not match the declared arity, the dispatcher prints exactly the
argument-count error and returns: the result is the post-shaping state (which
differs from the initial state only in output) plus that one message, the
store and the program counter are untouched — so the engine auto-advances to
the next line — and no handler runs; a handler is therefore only ever invoked
behind the successful arity check. -/
theorem C2_arity_guard (recurse : State → String → Outcome) (st : State)
    (cmd : String) (rawArgs : List String) (cdef : CommandDef) (hname : String)
    (st1 : State) (args : List Value)
    (hlook : dictLookup commandTable cmd = some cdef)
    (hh : cdef.handler = some hname)
    (hne : hname ≠ "")
    (hmem : hname ∈ handlerNames)
    (hsh : shape st cmd rawArgs cdef.arg_count = .ok st1 args)
    (hlen : args.length ≠ cdef.arg_count) :
    dispatch recurse st cmd rawArgs =
      .ok (emit st1 (arityMsg cmd cdef.arg_count args.length))
    ∧ st1.vars = st.vars ∧ st1.program_counter = st.program_counter := by
  have ho := shape_ok_only_output st cmd rawArgs cdef.arg_count st1 args hsh
  refine ⟨?_, ho.1, ho.2.2.1⟩
  unfold dispatch
  simp only [hlook, hh]
  rw [if_neg (by simp [hne, hmem])]
  simp only [hsh]
  rw [if_pos hlen]

/-- C2 witness: `ADD 1 2` shapes to two arguments against a declared arity of
three; the dispatcher reports the argument-count error and nothing else. -/
theorem C2_arity_guard_witness :
    dispatch (execute_line 0) blankState "ADD" ["1", "2"] =
      .ok (emit blankState (arityMsg "ADD" 3 2))
    ∧ blankState.vars = blankState.vars
    ∧ blankState.program_counter = blankState.program_counter :=
  C2_arity_guard (execute_line 0) blankState "ADD" ["1", "2"]
    ⟨"(VAR,VAL) (VAR,VAL) (VAR)", some "ARITH_ADD", 3⟩ "ARITH_ADD" blankState
    [.num 1, .num 2] (by decide) rfl (by decide) (by decide) (by decide) (by decide)

/-- C1: evaluation of the branch command at the specification's own examples.
With `X = 5` and `Y = 3`, the claim demands that `IF X Y LOW THEN …` reports
nothing and takes no branch, and that an unmet condition with `ELSE` executes
the sub-script; instead the handler's `elif` chain, which conflates keyword
validation with condition truth, falls into its `else` for every valid but
unmet condition, prints `Invalid condition: LOW` (resp. `HIGH`), and returns
— so the `ELSE` test on source line 301 is unreachable and no sub-script
runs in either case. -/
theorem C1_branch_eval :
    execute_line 2 branchExampleState "IF X Y LOW THEN PRINT 1 \"yes\"" =
      .ok (emit branchExampleState "Invalid condition: LOW")
    ∧ execute_line 2 branchExampleState "IF Y X HIGH ELSE PRINT 1 \"no\"" =
      .ok (emit branchExampleState "Invalid condition: HIGH") := by
  exact ⟨by decide, by decide⟩

/-- C6 counterexample: a command line is tokenized and dispatched with its
`#` text intact — `PRINT 1 hi # note` prints `hi # note`, not the
comment-stripped `hi` the claim predicts. -/
theorem C6_comment_counterexample :
    execute_line 1 blankState "PRINT 1 hi # note" = .ok (emit blankState "hi # note")
    ∧ "hi # note" ≠ "hi" := by
  exact ⟨by decide, by decide⟩

/-- C6 amended: comment text is stripped before interpretation in exactly two
places — a declaration-shaped line is routed to the declaration branch,
which cuts from the first `#`, re-validates that the closing `>` survived
(reporting a malformed declaration otherwise), and binds using only the
stripped text; and the script loader drops whole lines that start with `#`.
Command lines are not comment-stripped (see the counterexample). -/
theorem C6_comment_amended :
    (∀ (d : ℕ) (st : State) (line : String),
      strStartsWith (pyStrip line) "<" = true → strEndsWith (pyStrip line) ">" = true →
      execute_line (d + 1) st line = .ok (execDecl st (pyStrip line)))
  ∧ (∀ (st : State) (line : String),
      strEndsWith (pyStrip (beforeChar '#' line)) ">" = false →
      execDecl st line =
        emit st ("Invalid variable declaration format: " ++ line
          ++ " (missing closing \x27>\x27)"))
  ∧ (∀ (st : State) (line v w : String),
      strEndsWith (pyStrip (beforeChar '#' line)) ">" = true →
      splitFirst '=' (strDropEnds (pyStrip (beforeChar '#' line))) = some (v, w) →
      execDecl st line = setVar st (.str (pyStrip v)) (parse_value st.vars (pyStrip w)))
  ∧ (∀ (raw : List String) (l : String), l ∈ loadScript raw →
      l ≠ "" ∧ strStartsWith l "#" = false) := by
  refine ⟨?_, ?_, ?_, ?_⟩
  · intro d st line h1 h2
    have hne : ¬(pyStrip line = "") := by
      intro h0
      rw [h0] at h1
      exact absurd h1 (by decide)
    simp only [execute_line]
    simp only [execute_line_core]
    rw [if_neg hne, if_pos (by rw [h1, h2]; rfl)]
  · intro st line h
    simp only [execDecl]
    rw [if_pos (by rw [h]; rfl)]
  · intro st line v w h hsp
    simp only [execDecl]
    rw [if_neg (by rw [h]; decide), hsp]
  · intro raw l hl
    rcases List.mem_filter.mp hl with ⟨hmem, hp⟩
    simp only [Bool.and_eq_true, Bool.not_eq_true'] at hp
    refine ⟨by simpa using hp.1, hp.2⟩

/-- C6 amended witness: a declaration whose comment itself closes with `>`
survives the stripping and binds using only the text before the `#`. -/
theorem C6_comment_amended_witness :
    execute_line 1 blankState " <A = 2> #tail> " =
      .ok (setVar blankState (.str "A") (.num 2)) := by
  have h1 := C6_comment_amended.1 0 blankState " <A = 2> #tail> " (by decide) (by decide)
  rw [h1]
  decide

/-- Helper for the jump claims: executing the literal line `JUMP 1` on any
state with a non-empty loaded script sets the program counter to index 0. -/
theorem exec_jump_one (d : ℕ) (s : State) (ls : List String)
    (h : s.script_lines = some ls) (hlen : 0 < ls.length) :
    execute_line (d + 1) s "JUMP 1" = .ok (setPC s 0) := by
  have h1 : execute_line (d + 1) s "JUMP 1" =
      dispatch (execute_line d) s "JUMP" ["1"] := rfl
  have h2 : dispatch (execute_line d) s "JUMP" ["1"] =
      .ok (handle_jump s (.num 1)) := rfl
  rw [h1, h2]
  have h3 : pyInt? (.num 1) = some 1 := by decide
  unfold handle_jump
  simp only [h3, h]
  rw [if_pos]
  · rfl
  · refine ⟨by norm_num, ?_⟩
    have hz : (0 : ℤ) < (ls.length : ℤ) := by exact_mod_cast hlen
    simpa using hz

/-- C3 counterexample: `JUMP 1` executed at index 0 of a script does not make
the next step execute index 0.  The handler sets the counter to 0, the
engine sees it unchanged and advances, and the next executed line is index 1. -/
theorem C3_jump_counterexample :
    Outcome.isOk (engineStep 1 jumpLoopState) = true
    ∧ Outcome.pcOf (engineStep 1 jumpLoopState) = 1 := by
  exact ⟨by decide, by decide⟩

/-- C3 amended: the jump handler parses its target as an integer `t`
(a float target truncates toward zero), reports with the counter unchanged
when the target is non-numeric, when no script is loaded, or when `t - 1`
lies outside `[0, len(Script))`, and otherwise sets the counter to `t - 1`;
consequently `JUMP 1` executed at any position *other than index 0* makes
the next step execute index 0, while at index 0 itself the engine's
unchanged-counter check advances to index 1 (see the counterexample). -/
theorem C3_jump_amended (st : State) (target : Value) :
    (∀ (t : ℤ) (ls : List String), pyInt? target = some t →
      st.script_lines = some ls → 0 ≤ t - 1 → t - 1 < (ls.length : ℤ) →
      handle_jump st target = setPC st (t - 1).toNat)
  ∧ (pyInt? target = none →
      handle_jump st target = emit st ("JUMP error: Invalid line number \x27"
        ++ Value.render target ++ "\x27. Must be a numeric value.")
      ∧ (handle_jump st target).program_counter = st.program_counter)
  ∧ (∀ t : ℤ, pyInt? target = some t → st.script_lines = none →
      handle_jump st target =
        emit st "JUMP command is only valid when running a script from a file."
      ∧ (handle_jump st target).program_counter = st.program_counter)
  ∧ (∀ (t : ℤ) (ls : List String), pyInt? target = some t →
      st.script_lines = some ls → ¬(0 ≤ t - 1 ∧ t - 1 < (ls.length : ℤ)) →
      handle_jump st target = emit st ("JUMP error: Target line " ++ toString t
        ++ " is out of bounds.")
      ∧ (handle_jump st target).program_counter = st.program_counter)
  ∧ (∀ (d : ℕ) (ls : List String) (h : st.script_lines = some ls)
      (hpc : st.program_counter < ls.length),
      ls.get ⟨st.program_counter, hpc⟩ = "JUMP 1" → st.program_counter ≠ 0 →
      Outcome.isOk (engineStep (d + 1) st) = true
      ∧ Outcome.pcOf (engineStep (d + 1) st) = 0) := by
  refine ⟨?_, ?_, ?_, ?_, ?_⟩
  · intro t ls ht h h0 hlt
    unfold handle_jump
    simp only [ht, h]
    rw [if_pos ⟨h0, hlt⟩]
  · intro ht
    have he : handle_jump st target = emit st ("JUMP error: Invalid line number \x27"
        ++ Value.render target ++ "\x27. Must be a numeric value.") := by
      unfold handle_jump
      simp only [ht]
    exact ⟨he, by rw [he]; exact emit_pc st _⟩
  · intro t ht h
    have he : handle_jump st target =
        emit st "JUMP command is only valid when running a script from a file." := by
      unfold handle_jump
      simp only [ht, h]
    exact ⟨he, by rw [he]; exact emit_pc st _⟩
  · intro t ls ht h hout
    have he : handle_jump st target = emit st ("JUMP error: Target line " ++ toString t
        ++ " is out of bounds.") := by
      unfold handle_jump
      simp only [ht, h]
      rw [if_neg hout]
    exact ⟨he, by rw [he]; exact emit_pc st _⟩
  · intro d ls h hpc hline hpc0
    have heq := engineStep_eq (d + 1) st ls h hpc
    rw [hline] at heq
    have hex := exec_jump_one d
      (recordPC (emit st (echoMsg st.program_counter "JUMP 1")) st.program_counter) ls
      (by simp [h]) (lt_of_le_of_lt (Nat.zero_le _) hpc)
    rw [hex] at heq
    have hne : ¬((setPC (recordPC (emit st (echoMsg st.program_counter "JUMP 1"))
        st.program_counter) 0).program_counter = st.program_counter) := by
      simpa using fun hh => hpc0 hh.symm
    rw [heq]
    simp only [if_neg hne]
    exact ⟨rfl, rfl⟩

/-- C3 amended witness: from index 1 of a two-line script whose second line
is `JUMP 1`, the next step executes index 0; and `JUMP 3` on that two-line
script is reported out of bounds with the counter unchanged. -/
theorem C3_jump_amended_witness :
    Outcome.pcOf (engineStep 1 jumpFromSecondState) = 0
    ∧ handle_jump jumpFromSecondState (.num 3) =
      emit jumpFromSecondState ("JUMP error: Target line " ++ toString (3 : ℤ)
        ++ " is out of bounds.") := by
  constructor
  · exact ((C3_jump_amended jumpFromSecondState (.str "")).2.2.2.2 0
      ["PRINT 1 a", "JUMP 1"] rfl (by decide) (by decide) (by decide)).2
  · exact ((C3_jump_amended jumpFromSecondState (.num 3)).2.2.2.1 3
      ["PRINT 1 a", "JUMP 1"] (by decide) rfl (by decide)).1

/-- C4: the engine contract, in five parts: (i) a step at an in-range counter
reads exactly the script line at the counter, echoes and records it, executes
it, and advances to `before + 1` precisely when execution left the counter
equal to `before`, otherwise keeping the handler's value (an exception
propagates and aborts the loop); (ii) one loop iteration at an in-range
counter is that step followed by the loop on its result; (iii) the loop
halts immediately when the counter is outside `[0, len(Script))`; (iv) any
normal halt state has its counter outside the script range; (v) every index
the engine records as executed during a run lies below the script length —
executed lines are always read in range. -/
theorem C4_engine_contract :
    (∀ (d : ℕ) (st : State) (ls : List String) (h : st.script_lines = some ls)
      (hpc : st.program_counter < ls.length),
      engineStep d st =
        match execute_line d
            (recordPC (emit st (echoMsg st.program_counter
              (ls.get ⟨st.program_counter, hpc⟩))) st.program_counter)
            (ls.get ⟨st.program_counter, hpc⟩) with
        | .ok st1 =>
          .ok (if st1.program_counter = st.program_counter
            then setPC st1 (st.program_counter + 1) else st1)
        | .exn st1 e => .exn st1 e)
  ∧ (∀ (n d : ℕ) (st : State) (ls : List String), st.script_lines = some ls →
      st.program_counter < ls.length →
      runScript (n + 1) d st =
        match engineStep d st with
        | .ok st1 => runScript n d st1
        | .exn st1 e => .crashed st1 e)
  ∧ (∀ (n d : ℕ) (st : State) (ls : List String), st.script_lines = some ls →
      ls.length ≤ st.program_counter → runScript (n + 1) d st = .halted st)
  ∧ (∀ (n d : ℕ) (st st1 : State), runScript n d st = .halted st1 →
      ∀ ls, st1.script_lines = some ls → ls.length ≤ st1.program_counter)
  ∧ (∀ (n d : ℕ) (st : State) (ls : List String), st.script_lines = some ls →
      ∀ i ∈ (RunResult.state (runScript n d st)).executedPCs,
        i ∈ st.executedPCs ∨ i < ls.length) :=
  ⟨engineStep_eq, runScript_step, runScript_halt, runScript_halted_out, runScript_trace⟩

/-- C4 witness: on a one-line script whose line does not move the counter,
the step applies the transition rule and advances the counter to 1. -/
theorem C4_engine_contract_witness :
    Outcome.pcOf (engineStep 1 oneLineScriptState) = 1 := by
  have h := C4_engine_contract.1 1 oneLineScriptState ["AND 1 1 Z"] rfl (by decide)
  rw [Outcome.pcOf, h]
  decide

end SPiD
